import Mathlib

/-!
Shallow embedding of the WebScout research pipeline
(`src/backend/agent.py` and `src/backend/main.py`).

External LLM / web-search calls are modelled as oracle parameters:
a value of type `Except Unit α` (or `Except String α`) stands for the
outcome of one external call — `.error` models the call raising an
exception, `.ok` models its (already JSON-parsed) return value.
Stateful effect counting: `filter_results` and `generate_report`
additionally return the number of external completion calls they issue,
so that "makes no external call" is statable.

Python strings are modelled as `String` (length and slicing count
code points, as in Python); Python dicts with possibly-missing keys are
modelled with `Option`-typed fields and `.get(k, d)` becomes `Option.getD`.
-/

namespace WebScout

/-- A Python dict for one search result.  Fields are `Option` because a
dict may lack a key; `dict.get(key, default)` is `field.getD default`. -/
structure ResultDict where
  url : Option String := none
  title : Option String := none
  content : Option String := none
  query : Option String := none
deriving DecidableEq, Repr

/-- One entry of the sources list built by `filter_results`:
`{"num": source_number, "title": title, "url": url}` (agent.py 192-196). -/
structure Source where
  num : Nat
  title : String
  url : String
deriving DecidableEq, Repr

/-- An element of the JSON array `relevant_indices` as parsed by
`json.loads`: a Python int, or any other JSON value (string, float, ...),
which fails the `isinstance(i, int)` test in agent.py line 170. -/
inductive JsonVal where
  | int (i : Int)
  | other
deriving DecidableEq, Repr

/-! ## Function 2: `execute_search` (agent.py 73-101) -/

/-- The dict appended for each Tavily result (agent.py 90-95): every key
is present, missing keys of the raw response default to `""`. -/
def tavily_record (query : String) (r : ResultDict) : ResultDict :=
  { url := some (r.url.getD ""), title := some (r.title.getD ""),
    content := some (r.content.getD ""), query := some query }

/-- `execute_search(queries)`: one Tavily call per query inside
`try/except`; a raising query is skipped (`continue`) and the loop goes
on (agent.py 81-99).  `tavily` is the retrieval oracle. -/
def execute_search (tavily : String → Except Unit (List ResultDict))
    (queries : List String) : List ResultDict :=
  queries.foldl (fun all_results query =>
    match tavily query with
    | .error _ => all_results
    | .ok response => all_results ++ response.map (tavily_record query)) []

/-! ## Function 3: `filter_results` (agent.py 108-206) -/

/-- `list(range(min(3, len(raw_results))))` (agent.py 175 and 179). -/
def fallback_indices (n : Nat) : List Nat := List.range (min 3 n)

/-- The validation comprehension (agent.py 170):
`[i for i in relevant_indices if isinstance(i, int) and 0 <= i < len(raw_results)]`.
Survivors are returned as `Nat` (they are provably in `[0, n)`). -/
def validate_indices (decision : List JsonVal) (n : Nat) : List Nat :=
  decision.filterMap fun v =>
    match v with
    | .int i => if 0 ≤ i ∧ i < (n : Int) then some i.toNat else none
    | .other => none

/-- The selected indices of one run, for non-empty `raw_results` of
length `n`: the `try/except` around the completion call (agent.py
136-175) followed by the empty-result fallback (agent.py 178-179).
`llm = .error ()` models the call (or its JSON parse) raising. -/
def selected_indices (llm : Except Unit (List JsonVal)) (n : Nat) : List Nat :=
  let relevant :=
    match llm with
    | .error _ => fallback_indices n
    | .ok decision => validate_indices decision n
  if relevant = [] then fallback_indices n else relevant

/-- One sources entry (agent.py 188-196): `result.get('title', 'Source')`,
`result.get('url', '')`. -/
def source_of (r : ResultDict) (num : Nat) : Source :=
  { num := num, title := r.title.getD "Source", url := r.url.getD "" }

/-- One context block `f"[{source_number}]: {content}"` (agent.py 198). -/
def context_block (r : ResultDict) (num : Nat) : String :=
  "[" ++ toString num ++ "]: " ++ r.content.getD ""

/-- The loop of agent.py 182-199: one pass over the selected indices
appends to `sources` and to `context_parts` together, incrementing
`source_number` once per iteration.  (All indices reaching it are in
range, so `List.getD`'s default record is never consulted.) -/
def build_entries (raw : List ResultDict) : List Nat → Nat → List Source × List String
  | [], _ => ([], [])
  | idx :: rest, source_number =>
    let result := raw.getD idx {}
    let tail := build_entries raw rest (source_number + 1)
    (source_of result source_number :: tail.1,
     context_block result source_number :: tail.2)

/-- The sources list built by the loop, with `source_number` starting
at 1 (agent.py 184). -/
def build_sources (raw : List ResultDict) (idxs : List Nat) : List Source :=
  (build_entries raw idxs 1).1

/-- The context blocks built by the same loop. -/
def context_parts (raw : List ResultDict) (idxs : List Nat) : List String :=
  (build_entries raw idxs 1).2

/-- Python `"\n\n".join(parts)` (agent.py 201). -/
def join_blocks : List String → String
  | [] => ""
  | p :: ps => ps.foldl (fun acc x => acc ++ "\n\n" ++ x) p

/-- Python slice `s[:n]` (by code points). -/
def py_slice (s : String) (n : Nat) : String := String.mk (s.data.take n)

/-- The literal appended on truncation (agent.py 204). -/
def truncation_suffix : String := "\n\n[Content truncated...]"

/-- The 15,000-character cap (agent.py 203-204). -/
def truncate_context (s : String) : String :=
  if s.length > 15000 then py_slice s 15000 ++ truncation_suffix else s

/-- `filter_results(query, raw_results)` (agent.py 108-206), returning
`((context, sources), number_of_completion_calls)`.  The early return for
falsy `raw_results` (line 123-124) issues no completion call; otherwise
exactly one call is attempted (line 137). -/
def filter_results (llm : Except Unit (List JsonVal)) (query : String)
    (raw_results : List ResultDict) : (String × List Source) × Nat :=
  if raw_results = [] then (("", []), 0)
  else
    ((truncate_context (join_blocks (context_parts raw_results
        (selected_indices llm raw_results.length))),
      build_sources raw_results (selected_indices llm raw_results.length)), 1)

/-! ## Function 4: `generate_report` (agent.py 213-298)

The six `re.sub` passes of agent.py 277-284 are implemented as a scanner
per pattern, each scanning left to right and, at each position, either
consuming Python's leftmost-longest match there or emitting the current
character — exactly `re.sub`'s semantics for these patterns (none of
whose matches can backtrack, as each bounded class `[^x]*` must end at
the first excluded character).  Each scanner takes a fuel argument for
structural recursion; callers pass the input length, which bounds the
number of steps since every step consumes at least one character. -/

/-- `re.sub(r'\[\d+\]', '', report)` (agent.py 277). -/
def sub_citation_nums : Nat → List Char → List Char
  | 0, l => l
  | _ + 1, [] => []
  | fuel + 1, c :: cs =>
    if c == '[' then
      match cs.span Char.isDigit with
      | (_ :: _, d :: rest) =>
        if d == ']' then sub_citation_nums fuel rest
        else c :: sub_citation_nums fuel cs
      | _ => c :: sub_citation_nums fuel cs
    else c :: sub_citation_nums fuel cs

/-- `re.sub(r'\[Source \d+\]', '', report)` (agent.py 278). -/
def sub_source_tags : Nat → List Char → List Char
  | 0, l => l
  | _ + 1, [] => []
  | fuel + 1, c :: cs =>
    if c == '[' && "Source ".data.isPrefixOf cs then
      match (cs.drop 7).span Char.isDigit with
      | (_ :: _, d :: rest) =>
        if d == ']' then sub_source_tags fuel rest
        else c :: sub_source_tags fuel cs
      | _ => c :: sub_source_tags fuel cs
    else c :: sub_source_tags fuel cs

/-- `re.sub(r'\[[^\]]*\]\([^\)]*\)', '', report)` (agent.py 279). -/
def sub_md_links : Nat → List Char → List Char
  | 0, l => l
  | _ + 1, [] => []
  | fuel + 1, c :: cs =>
    if c == '[' then
      match cs.span (fun d => !(d == ']')) with
      | (_, _ :: d2 :: cs2) =>
        if d2 == '(' then
          match cs2.span (fun d => !(d == ')')) with
          | (_, _ :: rest) => sub_md_links fuel rest
          | _ => c :: sub_md_links fuel cs
        else c :: sub_md_links fuel cs
      | _ => c :: sub_md_links fuel cs
    else c :: sub_md_links fuel cs

/-- `re.sub(r'  +', ' ', report)` (agent.py 282): a maximal run of two or
more spaces becomes a single space. -/
def sub_multi_spaces : Nat → List Char → List Char
  | 0, l => l
  | _ + 1, [] => []
  | fuel + 1, c :: cs =>
    if c == ' ' then
      match cs.span (fun d => d == ' ') with
      | ([], _) => c :: sub_multi_spaces fuel cs
      | (_ :: _, rest) => ' ' :: sub_multi_spaces fuel rest
    else c :: sub_multi_spaces fuel cs

/-- `re.sub(r' +X', 'X', report)` for a punctuation character `X`
(agent.py 283-284 with `X` = `.` and `,`): a maximal run of spaces
immediately followed by `X` collapses to `X`. -/
def sub_space_before (p : Char) : Nat → List Char → List Char
  | 0, l => l
  | _ + 1, [] => []
  | fuel + 1, c :: cs =>
    if c == ' ' then
      match (cs.span (fun d => d == ' ')).2 with
      | d :: rest =>
        if d == p then p :: sub_space_before p fuel rest
        else c :: sub_space_before p fuel cs
      | [] => c :: sub_space_before p fuel cs
    else c :: sub_space_before p fuel cs

/-- The full cleanup chain of agent.py 277-284, in source order. -/
def clean_report (report : String) : String :=
  let l1 := sub_citation_nums report.data.length report.data
  let l2 := sub_source_tags l1.length l1
  let l3 := sub_md_links l2.length l2
  let l4 := sub_multi_spaces l3.length l3
  let l5 := sub_space_before '.' l4.length l4
  let l6 := sub_space_before ',' l5.length l5
  String.mk l6

/-- Python `str.strip()` whitespace test (ASCII whitespace; the file's
strings are ASCII at the stripped ends). -/
def is_py_space (c : Char) : Bool :=
  c == ' ' || c == '\t' || c == '\n' || c == '\x0b' || c == '\x0c' || c == '\r'

/-- Python `s.strip()`. -/
def py_strip (s : String) : String :=
  String.mk (((s.data.dropWhile is_py_space).reverse.dropWhile is_py_space).reverse)

/-- The literal no-evidence document returned at agent.py 220-232
(byte-for-byte, including the mojibaked warning-sign characters the file
actually contains before "Insufficient"). -/
def insufficient_info : String :=
  "## ‚ö†Ô∏è Insufficient Information\n\nI was unable to find enough relevant information to answer your question.\n\n**Possible reasons:**\n- The topic may be too niche or recent\n- Search results were not relevant to your specific question\n- The query may need to be rephrased\n\n**Suggestions:**\n- Try rephrasing your question with more specific keywords\n- Break down complex questions into simpler parts\n- Check if the topic has recent coverage online"

/-- One references line (agent.py 293-296):
`f"{num}. [{title}]({url})\n\n"` when `url` is truthy, else
`f"{num}. {title}\n\n"`. -/
def render_ref_line (s : Source) : String :=
  if s.url ≠ "" then
    (toString s.num ++ ". [" ++ s.title ++ "](" ++ s.url ++ ")") ++ "\n\n"
  else
    (toString s.num ++ ". " ++ s.title) ++ "\n\n"

/-- The references header (agent.py 287-288, byte-for-byte: the file
contains a private-use character plus mojibake before "References"). -/
def references_header : String :=
  "\n\n---\n\n## üìö References\n\n" ++
  "The following sources were used to compile this report:\n\n"

/-- The `references += ...` loop of agent.py 289-296. -/
def references_section (sources : List Source) : String :=
  sources.foldl (fun acc s => acc ++ render_ref_line s) references_header

/-- The whole deterministic post-processing of the generated narrative
(agent.py 277-298): the cleanup passes followed by `report + references`. -/
def inject_citations (narrative : String) (sources : List Source) : String :=
  clean_report narrative ++ references_section sources

/-- `generate_report(query, context, sources)` (agent.py 213-298),
returning `(report, number_of_completion_calls)`.  `llm_narrative` is
the narrative the completion call would return; on the no-evidence
branch (line 219) that call is never made. -/
def generate_report (llm_narrative : String) (query : String)
    (context : String) (sources : List Source) : String × Nat :=
  if context = "" ∨ py_strip context = "" ∨ sources = [] then
    (insufficient_info, 0)
  else
    (inject_citations llm_narrative sources, 1)

/-! ## `main.py`: the `/api/research` endpoint -/

/-- A Python value passed as a positional argument at the
`generate_report(...)` call site in main.py. -/
inductive PyVal where
  | vstr (s : String)
  | vpair (p : String × List Source)
  | vsources (l : List Source)

/-- `ResearchResponse` (main.py 42-46). -/
structure ResearchResponse where
  status : String
  plan : List String
  report : String

/-- The `HTTPException(status_code=500, detail=...)` raised at
main.py 96-99. -/
structure HTTPErrorResp where
  status_code : Nat
  detail : String
deriving DecidableEq, Repr

/-- `str(e)` for the `TypeError` CPython raises when a three-parameter
function — `def generate_report(query, context, sources)` — is called
with two positional arguments (CPython quotes the parameter name). -/
def missing_sources_msg : String :=
  "generate_report() missing 1 required positional argument: sources"

/-- Python-level call of `generate_report`, whose definition takes the
three positional parameters `query, context, sources` with no defaults
(agent.py 213).  Any argument list other than three well-typed values
raises a `TypeError`; in particular a two-argument call raises before
the function body runs. -/
def call_generate_report (llm_narrative : String) (args : List PyVal) :
    Except String String :=
  match args with
  | [PyVal.vstr query, PyVal.vstr context, PyVal.vsources sources] =>
    Except.ok (generate_report llm_narrative query context sources).1
  | [_, _] => Except.error missing_sources_msg
  | _ => Except.error "TypeError"

/-- The `research` endpoint body (main.py 76-99): the try block runs the
four pipeline steps; line 84 binds the whole `(context, sources)` tuple
returned by `filter_results` to `context`; line 87 calls
`generate_report(request.query, context)` with only two positional
arguments; any exception is converted to an `HTTPException` with status
500 and detail `f"Research failed: {str(e)}"`. -/
def research (plan_llm : Except String (List String))
    (tavily : String → Except Unit (List ResultDict))
    (filter_llm : Except Unit (List JsonVal))
    (report_llm : String)
    (query : String) : Except HTTPErrorResp ResearchResponse :=
  match plan_llm with
  | .error msg => .error ⟨500, "Research failed: " ++ msg⟩
  | .ok plan =>
    let raw_results := execute_search tavily plan
    let context := (filter_results filter_llm query raw_results).1
    match call_generate_report report_llm [PyVal.vstr query, PyVal.vpair context] with
    | .error msg => .error ⟨500, "Research failed: " ++ msg⟩
    | .ok report => .ok ⟨"success", plan, report⟩

/-! ## Helper definitions used only to state properties -/

/-- Python's substring test `needle in hay`. -/
def str_contains (hay needle : String) : Bool :=
  hay.data.tails.any fun t => needle.data.isPrefixOf t

/-- The integer carried by a JSON value, if it is one. -/
def int_part : JsonVal → Option Int
  | .int i => some i
  | .other => none

/-- What one query contributes to `execute_search`'s merged output:
nothing if its retrieval call raises, its mapped records otherwise. -/
def search_contrib (tavily : String → Except Unit (List ResultDict))
    (query : String) : List ResultDict :=
  match tavily query with
  | .error _ => []
  | .ok response => response.map (tavily_record query)

/-- Plain concatenation of the rendered reference lines, used to expose
the structure of `references_section`. -/
def concat_ref_lines : List Source → String
  | [] => ""
  | s :: rest => render_ref_line s ++ concat_ref_lines rest

/-! ## General lemmas about the embedded functions -/

theorem exec_foldl_eq (tavily : String → Except Unit (List ResultDict)) :
    ∀ (queries : List String) (acc : List ResultDict),
      queries.foldl (fun all_results query =>
        match tavily query with
        | .error _ => all_results
        | .ok response => all_results ++ response.map (tavily_record query)) acc =
      acc ++ queries.flatMap (search_contrib tavily) := by
  intro queries
  induction queries with
  | nil => intro acc; simp
  | cons q qs ih =>
    intro acc
    simp only [List.foldl_cons, List.flatMap_cons]
    cases h : tavily q with
    | error u => simp [ih, search_contrib, h]
    | ok resp => simp [ih, search_contrib, h]

theorem fallback_indices_ne_nil (n : Nat) (h : n ≠ 0) : fallback_indices n ≠ [] := by
  simp only [fallback_indices, ne_eq, List.range_eq_nil, Nat.min_eq_zero_iff]
  omega

theorem selected_indices_ne_nil (llm : Except Unit (List JsonVal)) (n : Nat)
    (h : n ≠ 0) : selected_indices llm n ≠ [] := by
  cases llm with
  | error u =>
    simp only [selected_indices]
    split
    · exact fallback_indices_ne_nil n h
    · exact fallback_indices_ne_nil n h
  | ok d =>
    simp only [selected_indices]
    split
    · exact fallback_indices_ne_nil n h
    · assumption

theorem build_entries_lengths (raw : List ResultDict) :
    ∀ (idxs : List Nat) (num : Nat),
      (build_entries raw idxs num).1.length = idxs.length ∧
      (build_entries raw idxs num).2.length = idxs.length := by
  intro idxs
  induction idxs with
  | nil => intro num; simp [build_entries]
  | cons i rest ih =>
    intro num
    simp [build_entries, (ih (num + 1)).1, (ih (num + 1)).2]

theorem build_entries_map_num (raw : List ResultDict) :
    ∀ (idxs : List Nat) (num : Nat),
      (build_entries raw idxs num).1.map Source.num = List.range' num idxs.length := by
  intro idxs
  induction idxs with
  | nil => intro num; simp [build_entries]
  | cons i rest ih =>
    intro num
    simp [build_entries, source_of, ih (num + 1), List.range']

theorem build_entries_map_title (raw : List ResultDict) :
    ∀ (idxs : List Nat) (num : Nat),
      (build_entries raw idxs num).1.map Source.title =
        idxs.map (fun i => (raw.getD i {}).title.getD "Source") := by
  intro idxs
  induction idxs with
  | nil => intro num; simp [build_entries]
  | cons i rest ih =>
    intro num
    simp [build_entries, source_of, ih (num + 1)]

theorem build_entries_map_url (raw : List ResultDict) :
    ∀ (idxs : List Nat) (num : Nat),
      (build_entries raw idxs num).1.map Source.url =
        idxs.map (fun i => (raw.getD i {}).url.getD "") := by
  intro idxs
  induction idxs with
  | nil => intro num; simp [build_entries]
  | cons i rest ih =>
    intro num
    simp [build_entries, source_of, ih (num + 1)]

theorem validate_nil (n : Nat) : validate_indices [] n = [] := rfl

theorem validate_cons_other (rest : List JsonVal) (n : Nat) :
    validate_indices (JsonVal.other :: rest) n = validate_indices rest n := rfl

theorem validate_cons_int (i : Int) (rest : List JsonVal) (n : Nat) :
    validate_indices (JsonVal.int i :: rest) n =
      if 0 ≤ i ∧ i < (n : Int) then i.toNat :: validate_indices rest n
      else validate_indices rest n := by
  unfold validate_indices
  rw [List.filterMap_cons]
  dsimp only
  by_cases hc : 0 ≤ i ∧ i < (n : Int)
  · rw [if_pos hc, if_pos hc]
  · rw [if_neg hc, if_neg hc]

theorem refs_foldl_concat : ∀ (l : List Source) (acc : String),
    l.foldl (fun a s => a ++ render_ref_line s) acc = acc ++ concat_ref_lines l := by
  intro l
  induction l with
  | nil => intro acc; simp [concat_ref_lines]
  | cons s rest ih =>
    intro acc
    simp only [List.foldl_cons, concat_ref_lines, ih, String.append_assoc]

theorem render_ref_line_split (s : Source) : ∃ t, render_ref_line s = t ++ "\n\n" := by
  unfold render_ref_line
  split
  · exact ⟨_, rfl⟩
  · exact ⟨_, rfl⟩

theorem refs_foldl_split (l : List Source) :
    ∀ acc : String, l ≠ [] →
      ∃ t, l.foldl (fun a s => a ++ render_ref_line s) acc = t ++ "\n\n" := by
  induction l with
  | nil => intro acc h; exact absurd rfl h
  | cons s rest ih =>
    intro acc _
    by_cases hr : rest = []
    · subst hr
      obtain ⟨t, ht⟩ := render_ref_line_split s
      refine ⟨acc ++ t, ?_⟩
      simp only [List.foldl_cons, List.foldl_nil]
      rw [ht, String.append_assoc]
    · simpa only [List.foldl_cons] using ih (acc ++ render_ref_line s) hr

theorem append_nn_ne_insufficient (x : String) : x ++ "\n\n" ≠ insufficient_info := by
  intro h
  have hd : x.data ++ ['\n', '\n'] = insufficient_info.data := by
    have h2 := congrArg String.data h
    rw [String.data_append] at h2
    exact h2
  have h1 : (x.data ++ ['\n', '\n']).getLast? = some '\n' := by
    rw [List.getLast?_append]
    rfl
  rw [hd] at h1
  exact absurd h1 (by decide)

theorem join_foldl_head (ps : List String) :
    ∀ (p : String) (c : Char) (cs : List Char), p.data = c :: cs →
      ∃ rest, (ps.foldl (fun acc x => acc ++ "\n\n" ++ x) p).data = c :: rest := by
  induction ps with
  | nil => intro p c cs h; exact ⟨cs, by simpa using h⟩
  | cons x xs ih =>
    intro p c cs h
    simp only [List.foldl_cons]
    refine ih (p ++ "\n\n" ++ x) c (cs ++ ("\n\n" ++ x).data) ?_
    rw [String.append_assoc, String.data_append, h]
    rfl

theorem truncate_context_head (s : String) (c : Char) (cs : List Char)
    (h : s.data = c :: cs) :
    ∃ rest, (truncate_context s).data = c :: rest := by
  unfold truncate_context
  split
  · refine ⟨cs.take 14999 ++ truncation_suffix.data, ?_⟩
    rw [String.data_append]
    show (s.data.take 15000) ++ truncation_suffix.data = _
    rw [h, show (15000 : Nat) = 14999 + 1 from rfl, List.take_succ_cons]
    rfl
  · exact ⟨cs, h⟩

theorem head_lbracket_nonblank (s : String) (cs : List Char)
    (h : s.data = '[' :: cs) : s ≠ "" ∧ py_strip s ≠ "" := by
  constructor
  · intro he
    rw [he] at h
    have hnil : ("" : String).data = [] := rfl
    rw [hnil] at h
    exact List.noConfusion h
  · intro he
    have hl : ((s.data.dropWhile is_py_space).reverse.dropWhile is_py_space).reverse =
        [] := congrArg String.data he
    rw [List.reverse_eq_nil_iff, List.dropWhile_eq_nil_iff] at hl
    have h2 : s.data.dropWhile is_py_space = '[' :: cs := by
      rw [h, List.dropWhile_cons, if_neg (by decide)]
    have h3 : '[' ∈ (s.data.dropWhile is_py_space).reverse := by
      rw [h2]; simp
    exact absurd (hl _ h3) (by decide)

/-! ## Claims -/

/-- C1 (counterexample): the claim asserts that, for
`sources = [{num: 1, title: "A", url: "http://a"}]` and the narrative
`"X is true [1]."`, the injection step replaces `[1]` by the rendered
citation so the output contains `"[[A](http://a)]"`.  The code
(agent.py 277-284) strips bracketed numeric markers instead of
replacing them, so the output contains no such rendered citation. -/
theorem c1_counterexample :
    str_contains (inject_citations "X is true [1]." [⟨1, "A", "http://a"⟩])
      "[[A](http://a)]" = false := by decide

/-- C1 (amended): on that same input the injection step removes the
literal marker `[1]` (the cleaned narrative is `"X is true."` and the
output contains neither `"[1]"` nor `"[[A](http://a)]"`), and the output
does contain the references line `"1. [A](http://a)"`. -/
theorem c1_amended :
    clean_report "X is true [1]." = "X is true." ∧
    str_contains (inject_citations "X is true [1]." [⟨1, "A", "http://a"⟩])
      "1. [A](http://a)" = true ∧
    str_contains (inject_citations "X is true [1]." [⟨1, "A", "http://a"⟩])
      "[1]" = false := by
  refine ⟨by decide, by decide, by decide⟩

/-- C2: for every request — whatever the planning, retrieval, filtering
and narrative oracles return — the `/api/research` orchestration fails:
main.py line 84 binds the whole `(context, sources)` pair to `context`
and line 87 calls `generate_report` with only two positional arguments,
so the call raises a `TypeError`, the handler returns the generic 500
response, and a success response is never produced.  Whenever the
planning step succeeds, the 500 detail is exactly the wrapped
missing-argument message. -/
theorem c2_research_always_500 (plan_llm : Except String (List String))
    (tavily : String → Except Unit (List ResultDict))
    (filter_llm : Except Unit (List JsonVal)) (report_llm query : String) :
    (∃ e rest, research plan_llm tavily filter_llm report_llm query = .error e ∧
      e.status_code = 500 ∧ e.detail = "Research failed: " ++ rest) ∧
    (∀ r, research plan_llm tavily filter_llm report_llm query ≠ .ok r) ∧
    (∀ plan, plan_llm = .ok plan →
      research plan_llm tavily filter_llm report_llm query =
        .error ⟨500, "Research failed: " ++ missing_sources_msg⟩) := by
  cases plan_llm with
  | error msg =>
    refine ⟨⟨⟨500, "Research failed: " ++ msg⟩, msg, rfl, rfl, rfl⟩, ?_, ?_⟩
    · intro r h
      exact Except.noConfusion h
    · intro plan h
      exact Except.noConfusion h
  | ok plan =>
    refine ⟨⟨⟨500, "Research failed: " ++ missing_sources_msg⟩,
      missing_sources_msg, rfl, rfl, rfl⟩, ?_, fun _ _ => rfl⟩
    intro r h
    exact Except.noConfusion h

/-- Witness for C2 at a concrete request and concrete oracle outcomes. -/
theorem c2_witness :
    (Except.ok ["p"] : Except String (List String)) = Except.ok ["p"] ∧
    research (Except.ok ["p"]) (fun _ => Except.error ()) (Except.error ()) "n" "q" =
      Except.error ⟨500, "Research failed: " ++ missing_sources_msg⟩ :=
  ⟨rfl, (c2_research_always_500 (Except.ok ["p"]) (fun _ => Except.error ())
    (Except.error ()) "n" "q").2.2 ["p"] rfl⟩

/-- C6 (counterexample): the claim asserts the surviving indices are
deduplicated.  Feeding the decision `[0, 0]` over two raw results, the
validation comprehension (agent.py 170) keeps both copies, and the same
raw result is registered twice with numbers 1 and 2. -/
theorem c6_counterexample :
    validate_indices [JsonVal.int 0, JsonVal.int 0] 2 = [0, 0] ∧
    ¬ (validate_indices [JsonVal.int 0, JsonVal.int 0] 2).Nodup ∧
    (filter_results (Except.ok [JsonVal.int 0, JsonVal.int 0]) "q"
        [{title := some "T", url := some "u", content := some "c"}, {}]).1.2 =
      [⟨1, "T", "u"⟩, ⟨2, "T", "u"⟩] := by
  refine ⟨by decide, by decide, by decide⟩

/-- C9 (counterexample): the claim asserts a blank title is replaced by
`"Source"`.  `result.get('title', 'Source')` (agent.py 189) defaults only
when the key is absent: a present-but-blank title is kept verbatim, and
`execute_search` (agent.py 90-95) always materializes the `title` key. -/
theorem c9_counterexample :
    (filter_results (Except.ok [JsonVal.int 0]) "q"
        [{url := some "u", title := some "", content := some "c"}]).1.2 =
      [{num := 1, title := "", url := "u"}] ∧
    ¬ ({num := 1, title := "", url := "u"} : Source).title = "Source" ∧
    (tavily_record "q" {title := some ""}).title = some "" := by
  refine ⟨by decide, by decide, rfl⟩

/-- C10: per-query retrieval failures are isolated: `execute_search`
returns exactly the concatenated contributions of the successful
queries, and deleting a failing query from the list does not change the
output — one query's failure never aborts or empties the overall
search. -/
theorem c10_error_isolation (tavily : String → Except Unit (List ResultDict)) :
    (∀ queries, execute_search tavily queries =
      queries.flatMap (search_contrib tavily)) ∧
    (∀ qs1 q qs2, tavily q = .error () →
      execute_search tavily (qs1 ++ q :: qs2) =
        execute_search tavily (qs1 ++ qs2)) := by
  have base : ∀ queries, execute_search tavily queries =
      queries.flatMap (search_contrib tavily) := by
    intro queries
    have h := exec_foldl_eq tavily queries []
    simpa [execute_search] using h
  refine ⟨base, ?_⟩
  intro qs1 q qs2 h
  rw [base, base, List.flatMap_append, List.flatMap_append, List.flatMap_cons]
  have hq : search_contrib tavily q = [] := by simp [search_contrib, h]
  simp [hq]

/-- C3: fallback policy of the batch relevance filter.  Empty
`raw_results` yields the empty selection with no external call; for
non-empty `raw_results`, a failing external call, or a successful one
whose validated indices are empty, both select exactly the first
`min(3, len(raw_results))` indices in original order; hence for every
non-empty `raw_results` the selection — and the sources list built from
it — is non-empty. -/
theorem c3_filter_fallback (llm : Except Unit (List JsonVal)) (query : String)
    (raw : List ResultDict) :
    (raw = [] → filter_results llm query raw = (("", []), 0)) ∧
    (raw ≠ [] → llm = Except.error () →
      selected_indices llm raw.length = List.range (min 3 raw.length)) ∧
    (raw ≠ [] → ∀ decision, llm = Except.ok decision →
      validate_indices decision raw.length = [] →
      selected_indices llm raw.length = List.range (min 3 raw.length)) ∧
    (raw ≠ [] → selected_indices llm raw.length ≠ [] ∧
      (filter_results llm query raw).1.2 ≠ []) := by
  refine ⟨?_, ?_, ?_, ?_⟩
  · intro h
    simp [filter_results, h]
  · intro _ hllm
    subst hllm
    simp [selected_indices, fallback_indices]
  · intro _ decision hllm hval
    subst hllm
    simp [selected_indices, hval, fallback_indices]
  · intro h
    have hn : raw.length ≠ 0 := by simpa [List.length_eq_zero] using h
    have hsel := selected_indices_ne_nil llm raw.length hn
    refine ⟨hsel, ?_⟩
    simp only [filter_results, if_neg h]
    simp only [build_sources, ne_eq]
    intro hnil
    have hlen := (build_entries_lengths raw (selected_indices llm raw.length) 1).1
    rw [hnil] at hlen
    exact hsel (List.length_eq_zero.mp hlen.symm)

/-- Witness for C3 at one concrete raw result and a failing filter call. -/
theorem c3_witness :
    (([({} : ResultDict)] : List ResultDict) ≠ []) ∧
    selected_indices (Except.error ()) ([({} : ResultDict)] : List ResultDict).length =
      List.range (min 3 1) ∧
    (filter_results (Except.error ()) "q" [({} : ResultDict)]).1.2 ≠ [] :=
  ⟨by simp,
   (c3_filter_fallback (Except.error ()) "q" [{}]).2.1 (by simp) rfl,
   ((c3_filter_fallback (Except.error ()) "q" [{}]).2.2.2 (by simp)).2⟩

/-- C4: context truncation.  Whenever the blank-line-joined
concatenation exceeds 15,000 characters, the context is exactly its
first 15,000 characters followed by the fixed truncation suffix (so its
length is exactly 15,000 plus the suffix length, never longer); a
concatenation of at most 15,000 characters is returned unchanged. -/
theorem c4_truncation (parts : List String) :
    ((join_blocks parts).length > 15000 →
      truncate_context (join_blocks parts) =
        py_slice (join_blocks parts) 15000 ++ truncation_suffix ∧
      (truncate_context (join_blocks parts)).length =
        15000 + truncation_suffix.length) ∧
    ((join_blocks parts).length ≤ 15000 →
      truncate_context (join_blocks parts) = join_blocks parts) := by
  constructor
  · intro h
    have he : truncate_context (join_blocks parts) =
        py_slice (join_blocks parts) 15000 ++ truncation_suffix := by
      simp only [truncate_context, if_pos h]
    refine ⟨he, ?_⟩
    rw [he, String.length_append]
    have hs : (py_slice (join_blocks parts) 15000).length = 15000 := by
      show ((join_blocks parts).data.take 15000).length = 15000
      rw [List.length_take]
      have : 15000 ≤ (join_blocks parts).data.length := Nat.le_of_lt h
      omega
    rw [hs]
  · intro h
    simp only [truncate_context, if_neg (by omega : ¬ (join_blocks parts).length > 15000)]

/-- Witness for C4 on a 16,000-character block. -/
theorem c4_witness :
    (join_blocks [String.mk (List.replicate 16000 'a')]).length > 15000 ∧
    (truncate_context (join_blocks [String.mk (List.replicate 16000 'a')]) =
      py_slice (join_blocks [String.mk (List.replicate 16000 'a')]) 15000 ++
        truncation_suffix ∧
     (truncate_context (join_blocks [String.mk (List.replicate 16000 'a')])).length =
      15000 + truncation_suffix.length) := by
  have hlen : (join_blocks [String.mk (List.replicate 16000 'a')]).length > 15000 := by
    show 15000 < (List.replicate 16000 'a').length
    rw [List.length_replicate]
    norm_num
  exact ⟨hlen, (c4_truncation [String.mk (List.replicate 16000 'a')]).1 hlen⟩

/-- C5: numbering invariant.  For every run on non-empty raw results the
registered sources are exactly those built (in one pass) from the
selected indices; their `num` values are `1, 2, ...` sequentially with
no gaps, assigned in selection order (titles and urls follow the order
of the selected index list, not document order), and the number of
sources equals the number of context blocks. -/
theorem c5_numbering (llm : Except Unit (List JsonVal)) (query : String)
    (raw : List ResultDict) (h : raw ≠ []) :
    (filter_results llm query raw).1.2 =
      build_sources raw (selected_indices llm raw.length) ∧
    ∀ idxs : List Nat,
      (build_sources raw idxs).map Source.num = List.range' 1 idxs.length ∧
      (build_sources raw idxs).length = (context_parts raw idxs).length ∧
      (build_sources raw idxs).map Source.title =
        idxs.map (fun i => (raw.getD i {}).title.getD "Source") ∧
      (build_sources raw idxs).map Source.url =
        idxs.map (fun i => (raw.getD i {}).url.getD "") := by
  constructor
  · simp [filter_results, h]
  · intro idxs
    refine ⟨build_entries_map_num raw idxs 1, ?_,
      build_entries_map_title raw idxs 1, build_entries_map_url raw idxs 1⟩
    rw [build_sources, context_parts, (build_entries_lengths raw idxs 1).1,
      (build_entries_lengths raw idxs 1).2]

/-- Witness for C5 at a concrete run. -/
theorem c5_witness :
    (([({url := some "u", title := some "T", content := some "c"} : ResultDict)] :
        List ResultDict) ≠ []) ∧
    (filter_results (Except.ok [JsonVal.int 0]) "q"
        [{url := some "u", title := some "T", content := some "c"}]).1.2 =
      build_sources [{url := some "u", title := some "T", content := some "c"}]
        (selected_indices (Except.ok [JsonVal.int 0])
          ([({url := some "u", title := some "T", content := some "c"} : ResultDict)] :
            List ResultDict).length) :=
  ⟨by simp,
   (c5_numbering (Except.ok [JsonVal.int 0]) "q"
     [{url := some "u", title := some "T", content := some "c"}] (by simp)).1⟩

/-- Witness for C10: a concrete oracle failing on one of two queries. -/
theorem c10_witness :
    ((fun q => if q = "bad" then Except.error () else
        Except.ok [{title := some "T"}] :
      String → Except Unit (List ResultDict)) "bad" = Except.error ()) ∧
    execute_search (fun q => if q = "bad" then Except.error () else
        Except.ok [{title := some "T"}]) (["good"] ++ "bad" :: []) =
      execute_search (fun q => if q = "bad" then Except.error () else
        Except.ok [{title := some "T"}]) (["good"] ++ []) :=
  ⟨by simp, (c10_error_isolation _).2 ["good"] "bad" [] (by simp)⟩

/-- C6 (amended): every element of the structured decision that is not
an integer in `[0, len(raw_results))` is discarded non-fatally; the
surviving indices keep their original order and multiplicity — they are
a sublist of the decision's integer entries and are NOT deduplicated
(an in-range index occurs in the survivors exactly as often as among
the decision's integer entries). -/
theorem c6_validation (decision : List JsonVal) (n : Nat) :
    (∀ j ∈ validate_indices decision n, j < n) ∧
    (validate_indices decision n).Sublist
      (decision.filterMap fun v => (int_part v).map Int.toNat) ∧
    (∀ j, j < n →
      (validate_indices decision n).count j =
        (decision.filterMap int_part).count ((j : Int))) := by
  have hip : ∀ (i : Int) (rest : List JsonVal),
      (JsonVal.int i :: rest).filterMap int_part = i :: rest.filterMap int_part :=
    fun _ _ => rfl
  have mem : ∀ d : List JsonVal, ∀ j ∈ validate_indices d n, j < n := by
    intro d
    induction d with
    | nil =>
      intro j hj
      rw [validate_nil] at hj
      exact absurd hj (List.not_mem_nil j)
    | cons v rest ih =>
      intro j hj
      cases v with
      | other =>
        rw [validate_cons_other] at hj
        exact ih j hj
      | int i =>
        rw [validate_cons_int] at hj
        by_cases hc : 0 ≤ i ∧ i < (n : Int)
        · rw [if_pos hc] at hj
          rcases List.mem_cons.mp hj with rfl | hj2
          · omega
          · exact ih j hj2
        · rw [if_neg hc] at hj
          exact ih j hj
  have sub : ∀ d : List JsonVal,
      (validate_indices d n).Sublist
        (d.filterMap fun v => (int_part v).map Int.toNat) := by
    intro d
    induction d with
    | nil =>
      rw [validate_nil]
      exact List.nil_sublist _
    | cons v rest ih =>
      cases v with
      | other =>
        rw [validate_cons_other]
        exact ih
      | int i =>
        rw [validate_cons_int]
        by_cases hc : 0 ≤ i ∧ i < (n : Int)
        · rw [if_pos hc]
          exact List.Sublist.cons₂ i.toNat ih
        · rw [if_neg hc]
          exact List.Sublist.cons i.toNat ih
  have cnt : ∀ j, j < n → ∀ d : List JsonVal,
      (validate_indices d n).count j = (d.filterMap int_part).count ((j : Int)) := by
    intro j hj d
    induction d with
    | nil =>
      rw [validate_nil]
      rfl
    | cons v rest ih =>
      cases v with
      | other =>
        rw [validate_cons_other]
        exact ih
      | int i =>
        rw [validate_cons_int, hip]
        by_cases hc : 0 ≤ i ∧ i < (n : Int)
        · rw [if_pos hc, List.count_cons, List.count_cons, ih]
          by_cases hij : i = (j : Int)
          · have htn : i.toNat = j := by omega
            simp [htn, hij]
          · have htn : i.toNat ≠ j := by omega
            simp [htn, hij]
        · rw [if_neg hc, List.count_cons, ih]
          have hij : i ≠ (j : Int) := by omega
          simp [hij]
  exact ⟨mem decision, sub decision, fun j hj => cnt j hj decision⟩

/-- Witness for C6 (amended) at a concrete decision with a duplicate. -/
theorem c6_witness :
    0 < 2 ∧
    (validate_indices [JsonVal.int 0, JsonVal.other, JsonVal.int 5, JsonVal.int 0] 2).count 0 =
      (([JsonVal.int 0, JsonVal.other, JsonVal.int 5,
          JsonVal.int 0].filterMap int_part).count ((0 : Nat) : Int)) :=
  ⟨by norm_num,
   (c6_validation [JsonVal.int 0, JsonVal.other, JsonVal.int 5, JsonVal.int 0] 2).2.2
     0 (by norm_num)⟩

/-- C7: no-evidence terminal state.  `generate_report` returns the
fixed literal fallback document with no narrative-generation call
exactly when the context is empty/blank or the sources list is empty
(otherwise the report differs from the fallback and one call is made);
in particular `raw_results = []` gives, end to end through
`filter_results`, exactly that document. -/
theorem c7_no_evidence (narr query ctx : String) (srcs : List Source) :
    ((ctx = "" ∨ py_strip ctx = "" ∨ srcs = []) →
      generate_report narr query ctx srcs = (insufficient_info, 0)) ∧
    (¬(ctx = "" ∨ py_strip ctx = "" ∨ srcs = []) →
      (generate_report narr query ctx srcs).1 ≠ insufficient_info ∧
      (generate_report narr query ctx srcs).2 = 1) ∧
    (∀ llm, filter_results llm query ([] : List ResultDict) = (("", []), 0) ∧
      generate_report narr query (filter_results llm query []).1.1
        (filter_results llm query []).1.2 = (insufficient_info, 0)) := by
  refine ⟨?_, ?_, ?_⟩
  · intro h
    simp only [generate_report, if_pos h]
  · intro h
    have hsrcs : srcs ≠ [] := fun hs => h (Or.inr (Or.inr hs))
    have hgr : generate_report narr query ctx srcs = (inject_citations narr srcs, 1) := by
      simp only [generate_report, if_neg h]
    refine ⟨?_, by rw [hgr]⟩
    rw [hgr]
    show clean_report narr ++
      srcs.foldl (fun a s => a ++ render_ref_line s) references_header ≠
        insufficient_info
    obtain ⟨t, ht⟩ := refs_foldl_split srcs references_header hsrcs
    rw [ht, ← String.append_assoc]
    exact append_nn_ne_insufficient _
  · intro llm
    exact ⟨rfl, rfl⟩

/-- Witness for C7 at the empty context and empty sources. -/
theorem c7_witness :
    (("" : String) = "" ∨ py_strip "" = "" ∨ ([] : List Source) = []) ∧
    generate_report "n" "q" "" [] = (insufficient_info, 0) :=
  ⟨Or.inl rfl, (c7_no_evidence "n" "q" "" []).1 (Or.inl rfl)⟩

/-- C8: exhaustive references.  For every run whose registered sources
are non-empty and every narrative, the produced report is the cleaned
narrative followed by the references section; that section lists every
registered source, one rendered line each in list order — which is
ascending `num` order, since the nums are `1..len` sequentially — and
each line is `"{num}. [{title}]({url})"` for a non-empty url and
`"{num}. {title}"` otherwise (plus the blank-line separator),
independently of which markers the narrative used. -/
theorem c8_references (llm : Except Unit (List JsonVal)) (query narr : String)
    (raw : List ResultDict)
    (h : (filter_results llm query raw).1.2 ≠ []) :
    (generate_report narr query (filter_results llm query raw).1.1
        (filter_results llm query raw).1.2).1 =
      clean_report narr ++ references_section (filter_results llm query raw).1.2 ∧
    references_section (filter_results llm query raw).1.2 =
      references_header ++ concat_ref_lines (filter_results llm query raw).1.2 ∧
    ((filter_results llm query raw).1.2).map Source.num =
      List.range' 1 ((filter_results llm query raw).1.2).length ∧
    ∀ s ∈ (filter_results llm query raw).1.2,
      render_ref_line s =
        if s.url ≠ "" then
          toString s.num ++ ". [" ++ s.title ++ "](" ++ s.url ++ ")" ++ "\n\n"
        else
          toString s.num ++ ". " ++ s.title ++ "\n\n" := by
  have hraw : raw ≠ [] := by
    intro hr
    apply h
    rw [hr]
    rfl
  have hfe : filter_results llm query raw =
      ((truncate_context (join_blocks (context_parts raw
          (selected_indices llm raw.length))),
        build_sources raw (selected_indices llm raw.length)), 1) := by
    simp only [filter_results, if_neg hraw]
  have hsrc : build_sources raw (selected_indices llm raw.length) ≠ [] := by
    rw [hfe] at h
    exact h
  have hsel : selected_indices llm raw.length ≠ [] := by
    apply selected_indices_ne_nil
    simpa [List.length_eq_zero] using hraw
  obtain ⟨i, rest, hidx⟩ : ∃ i rest, selected_indices llm raw.length = i :: rest := by
    cases hs : selected_indices llm raw.length with
    | nil => exact absurd hs hsel
    | cons i rest => exact ⟨i, rest, rfl⟩
  obtain ⟨tl, hblockd⟩ : ∃ tl, (context_block (raw.getD i {}) 1).data = '[' :: tl := by
    refine ⟨(toString 1).data ++ "]: ".data ++ ((raw.getD i {}).content.getD "").data, ?_⟩
    show ((("[" ++ toString 1) ++ "]: ") ++ ((raw.getD i {}).content.getD "")).data = _
    rw [String.data_append, String.data_append, String.data_append]
    simp [List.append_assoc]
  obtain ⟨r2, hjoind⟩ : ∃ r2, (join_blocks (context_parts raw
      (selected_indices llm raw.length))).data = '[' :: r2 := by
    rw [hidx]
    exact join_foldl_head _ _ '[' tl hblockd
  obtain ⟨r3, hctxd⟩ := truncate_context_head _ '[' r2 hjoind
  obtain ⟨hne, hns⟩ := head_lbracket_nonblank _ r3 hctxd
  have hcond : ¬(truncate_context (join_blocks (context_parts raw
      (selected_indices llm raw.length))) = "" ∨
      py_strip (truncate_context (join_blocks (context_parts raw
        (selected_indices llm raw.length)))) = "" ∨
      build_sources raw (selected_indices llm raw.length) = []) := by
    push_neg
    exact ⟨hne, hns, hsrc⟩
  rw [hfe]
  refine ⟨?_, ?_, ?_, fun s _ => rfl⟩
  · show (generate_report narr query
      (truncate_context (join_blocks (context_parts raw
        (selected_indices llm raw.length))))
      (build_sources raw (selected_indices llm raw.length))).1 = _
    simp only [generate_report, if_neg hcond]
    rfl
  · exact refs_foldl_concat _ references_header
  · show (build_entries raw (selected_indices llm raw.length) 1).1.map Source.num =
      List.range' 1 (build_entries raw (selected_indices llm raw.length) 1).1.length
    rw [(build_entries_lengths raw (selected_indices llm raw.length) 1).1]
    exact build_entries_map_num raw _ 1

/-- Witness for C8 at a concrete run with one selected source. -/
theorem c8_witness :
    ((filter_results (Except.ok [JsonVal.int 0]) "q"
        [{url := some "http://a", title := some "A", content := some "c"}]).1.2 ≠ []) ∧
    ((filter_results (Except.ok [JsonVal.int 0]) "q"
        [{url := some "http://a", title := some "A", content := some "c"}]).1.2).map
        Source.num =
      List.range' 1 ((filter_results (Except.ok [JsonVal.int 0]) "q"
        [{url := some "http://a", title := some "A", content := some "c"}]).1.2).length :=
  ⟨by decide,
   (c8_references (Except.ok [JsonVal.int 0]) "q" "narrative"
     [{url := some "http://a", title := some "A", content := some "c"}]
     (by decide)).2.2.1⟩

/-- C9 (amended): in the Source entry built for a selected raw result,
the title defaults to `"Source"` only when the `title` key is absent —
a present-but-blank title is kept verbatim — and a missing `url`
defaults to the empty string. -/
theorem c9_title_default (r : ResultDict) (num : Nat) :
    (r.title = none → (source_of r num).title = "Source") ∧
    (∀ t, r.title = some t → (source_of r num).title = t) ∧
    (r.url = none → (source_of r num).url = "") ∧
    (∀ u, r.url = some u → (source_of r num).url = u) :=
  ⟨fun h => by simp [source_of, h], fun t h => by simp [source_of, h],
   fun h => by simp [source_of, h], fun u h => by simp [source_of, h]⟩

/-- Witness for C9 (amended): a missing title defaults, a blank present
title survives. -/
theorem c9_witness :
    (({} : ResultDict).title = none) ∧ (source_of {} 1).title = "Source" ∧
    (({title := some ""} : ResultDict).title = some "") ∧
    (source_of {title := some ""} 1).title = "" :=
  ⟨rfl, (c9_title_default {} 1).1 rfl, rfl,
   (c9_title_default {title := some ""} 1).2.1 "" rfl⟩

end WebScout
